import Mathlib

/-
Verification development for the MovieChatBot repository.

The embedding models `MovieChatBot.chat` (one user-question turn of the
retrieval-augmented conversation loop), `MovieChatBot.restart` and
`MovieChatBot.save_chat_history` from src/chatbot.py.  External
collaborators (the LLM inference client, the Neo4j graph store, and
Python's `ast.literal_eval`) are modelled as oracle functions supplied as
parameters, so theorems quantify over every possible behaviour of those
collaborators.  Python string primitives used by the code (`in`,
`str.split`, `str.strip`) are embedded as structurally recursive Lean
functions so that every definition evaluates inside the kernel.
-/

/-- Whitespace characters removed by Python's `str.strip()` for the
inputs relevant here (ASCII whitespace). -/
def pySpace (c : Char) : Bool :=
  c == ' ' || c == '\t' || c == '\n' || c == '\r' ||
  c == Char.ofNat 11 || c == Char.ofNat 12

/-- Embedding of Python `s.strip()`: drop whitespace from both ends. -/
def pyStrip (s : String) : String :=
  String.mk (((s.data.dropWhile pySpace).reverse.dropWhile pySpace).reverse)

/-- Occurrence of `needle` as a contiguous sublist of a character list. -/
def containsSub (needle : List Char) : List Char → Bool
  | [] => needle.isEmpty
  | c :: rest => needle.isPrefixOf (c :: rest) || containsSub needle rest

/-- Embedding of Python `needle in hay` on strings. -/
def strContains (hay needle : String) : Bool :=
  containsSub needle.data hay.data

/-- Worker for `pySplit`; the fuel argument is an upper bound on the
length of the remaining character list, making the recursion structural. -/
def pySplitAux (sep : List Char) : Nat → List Char → List (List Char)
  | _, [] => [[]]
  | 0, l => [l]
  | fuel + 1, c :: rest =>
    if sep.isPrefixOf (c :: rest) then
      [] :: pySplitAux sep fuel (List.drop (sep.length - 1) rest)
    else
      match pySplitAux sep fuel rest with
      | [] => [[c]]
      | part :: parts => (c :: part) :: parts

/-- Embedding of Python `s.split(sep)` for a non-empty separator:
splits on each non-overlapping occurrence of `sep`, scanning left to
right; always returns a non-empty list. -/
def pySplit (s sep : String) : List String :=
  (pySplitAux sep.data s.data.length s.data).map String.mk

/-- String `s` starts with string `p`. -/
def strHasPfx (p s : String) : Bool :=
  p.data.isPrefixOf s.data

/-- One entry of the chat history list (`self._chat_history`): the code
appends dictionaries with role "user" (carrying the retrieval context of
the turn) or role "assistant". -/
inductive HistEntry where
  | user (content : String) (context : List String)
  | assistant (content : String)
deriving DecidableEq

/-- The mutable instance state of `MovieChatBot` (chatbot.py lines
23-29), restricted to the fields the conversation loop reads or writes. -/
structure BotState where
  chat_history : List HistEntry
  rag_question : String
  question : String
  answer : String
  context : List String
  previous_queries : List String
  used_queries : List String
deriving DecidableEq

/-- Outcome of `Neo4jGraph.query` on one Cypher query, as classified by
the code: either the serialized result `str(self._graphDB.query(q))`, or
a raised `CypherSyntaxError`. -/
inductive QueryResult where
  | ok (serialized : String)
  | synErr
deriving DecidableEq

/-- A Python literal value, restricted to the shapes relevant to the
iteration in the query loop: a string (iterating yields its characters
as one-character strings), a list of strings (iterating yields the
elements), or a non-iterable literal such as an int. -/
inductive PyLit where
  | str (s : String)
  | listOfStr (xs : List String)
  | nonIterable
deriving DecidableEq

/-- Outcome of `ast.literal_eval` on a string: a parsed literal, a
raised `SyntaxError`, or a raised `ValueError` (raised, per the Python
documentation, when the input parses as Python syntax but is not a
literal, e.g. a bare identifier). -/
inductive ParseResult where
  | lit (v : PyLit)
  | synErr
  | valErr
deriving DecidableEq

/-- Python exceptions that the turn code does not catch and that
therefore propagate out of `chat`. -/
inductive PyError where
  | valErr
  | typeErr
deriving DecidableEq

/-- Behaviour of the external collaborators, as functions of exactly the
data the code passes them: `answerLLM` receives the inputs of the `base`
prompt template (question, context, chat_history); `cypherLLM` receives
the inputs of the `cypher_prompt` template (rag_question,
previous_queries, used_queries); `litEval` models `ast.literal_eval`;
`db` models `Neo4jGraph.query` composed with `str`. -/
structure Oracles where
  answerLLM : String → List String → List HistEntry → String
  cypherLLM : String → List String → List String → String
  litEval : String → ParseResult
  db : String → QueryResult

/-- Result of running one user-question turn: normal completion with the
final state and the list of queries submitted to the graph store, or
(model artefacts of the unbounded while-loop and of uncaught Python
exceptions) exhaustion of the step budget, or an uncaught exception. -/
inductive TurnResult where
  | done (s : BotState) (submitted : List String)
  | fuelOut
  | exn (e : PyError)
deriving DecidableEq

/-- The state established by `__init__` (chatbot.py lines 23-29): every
field empty. -/
def initState : BotState :=
  { chat_history := [], rag_question := "", question := "", answer := "",
    context := [], previous_queries := [], used_queries := [] }

/-- `MovieChatBot.restart` (chatbot.py lines 98-105): resets every state
variable. -/
def restart (_s : BotState) : BotState :=
  { chat_history := [], rag_question := "", question := "", answer := "",
    context := [], previous_queries := [], used_queries := [] }

/-- `MovieChatBot.save_chat_history` (chatbot.py lines 91-93): appends
the user turn (with its retrieval context) and the assistant turn to the
chat history. -/
def save_chat_history (s : BotState) : BotState :=
  { s with chat_history := s.chat_history ++
      [HistEntry.user s.question s.context, HistEntry.assistant s.answer] }

/-- The per-question reset at the top of a turn (chatbot.py lines
130-133): `self._question = user_q; self._context = [];
self._used_queries = []; self._previous_queries = []`.  Note that
`_rag_question` and `_answer` are not assigned here. -/
def resetForQuestion (s : BotState) (user_q : String) : BotState :=
  { s with question := user_q, context := [], used_queries := [],
           previous_queries := [] }

/-- Regeneration of the answer from the `base` template inputs
(chatbot.py lines 136-146 and 181-190): the answer field is replaced by
the LLM completion for (question, context, chat_history). -/
def withNewAnswer (o : Oracles) (s : BotState) : BotState :=
  { s with answer := o.answerLLM s.question s.context s.chat_history }

/-- Execution of a single Cypher query (chatbot.py lines 161-178): on a
`CypherSyntaxError` the annotated query joins `previous_queries`; on a
result that strips to `"[]"` the annotated query joins
`previous_queries`; otherwise the serialized result joins `context` and
the raw query joins `used_queries`. -/
def execQuery (db : String → QueryResult) (s : BotState) (q : String) : BotState :=
  match db q with
  | .synErr =>
    { s with previous_queries :=
        s.previous_queries ++ ["Invalid syntax of this query: " ++ q] }
  | .ok r =>
    if pyStrip r = "[]" then
      { s with previous_queries :=
          s.previous_queries ++ ["No data generated for this query: " ++ q] }
    else
      { s with context := s.context ++ [r],
               used_queries := s.used_queries ++ [q] }

/-- The `for` loop over the candidate query list (chatbot.py line 161):
executes every candidate in list order and also returns the list of
queries submitted to the graph store, in submission order. -/
def execBatch (db : String → QueryResult) (s : BotState) :
    List String → BotState × List String
  | [] => (s, [])
  | q :: qs =>
    ((execBatch db (execQuery db s q) qs).1,
     q :: (execBatch db (execQuery db s q) qs).2)

/-- Python iteration over the value returned by `ast.literal_eval`
(chatbot.py line 161): a string yields its characters as one-character
strings, a list yields its elements, a non-iterable raises `TypeError`. -/
def pyIter : PyLit → Except PyError (List String)
  | .str s => .ok (s.data.map (fun c => String.mk [c]))
  | .listOfStr xs => .ok xs
  | .nonIterable => .error .typeErr

/-- The "Transform string to list" step (chatbot.py lines 154-158):
`try: ... = ast.literal_eval(...) except SyntaxError: ... = [...]`,
followed by iteration of the resulting value.  Only `SyntaxError` is
caught; a `ValueError` from `literal_eval` propagates uncaught. -/
def parseQueryOutput (litEval : String → ParseResult) (out : String) :
    Except PyError (List String) :=
  match litEval out with
  | .lit v => pyIter v
  | .synErr => .ok [out]
  | .valErr => .error .valErr

/-- Extraction of the RAG question from the answer (chatbot.py lines
150-151): `self._answer.split("NO_CONTEXT")[-1].strip()`. -/
def ragFromAnswer (answer : String) : String :=
  pyStrip ((pySplit answer "NO_CONTEXT").getLastD "")

/-- The assignment `self._rag_question = ...` at the top of a round
(chatbot.py line 151). -/
def roundStart (s : BotState) : BotState :=
  { s with rag_question := ragFromAnswer s.answer }

/-- One iteration of the `while "NO_CONTEXT" in self._answer` body
(chatbot.py lines 150-190): set the RAG question, ask the LLM for
Cypher queries via the cypher template inputs, parse its output, execute
every candidate, then regenerate the answer.  Returns the new state and
the queries submitted this round, or the uncaught Python exception. -/
def retrievalRound (o : Oracles) (s : BotState) :
    Except PyError (BotState × List String) :=
  match parseQueryOutput o.litEval
      (o.cypherLLM (roundStart s).rag_question (roundStart s).previous_queries
        (roundStart s).used_queries) with
  | .error e => .error e
  | .ok qs =>
    .ok (withNewAnswer o (execBatch o.db (roundStart s) qs).1,
         (execBatch o.db (roundStart s) qs).2)

/-- The `while "NO_CONTEXT" in self._answer` loop (chatbot.py line 149).
The source loop is unbounded; `fuel` is the number of rounds the model
is allowed to observe, and `.fuelOut` means the loop was still running
after that many rounds. -/
def runLoop (o : Oracles) : Nat → BotState → List String → TurnResult
  | 0, s, tr =>
    if strContains s.answer "NO_CONTEXT" then .fuelOut else .done s tr
  | fuel + 1, s, tr =>
    if strContains s.answer "NO_CONTEXT" then
      match retrievalRound o s with
      | .error e => .exn e
      | .ok (s', tr') => runLoop o fuel s' (tr ++ tr')
    else .done s tr

/-- One full user-question turn of `MovieChatBot.chat` (chatbot.py lines
128-194, the branch for a non-control input): reset the per-question
state, generate the initial answer, run the retrieval loop, then save
the exchange to the chat history. -/
def runTurn (o : Oracles) (fuel : Nat) (s : BotState) (user_q : String) :
    TurnResult :=
  match runLoop o fuel (withNewAnswer o (resetForQuestion s user_q)) [] with
  | .done s2 tr => .done (save_chat_history s2) tr
  | .fuelOut => .fuelOut
  | .exn e => .exn e

/-- Invariant: the accumulated context and the succeeded queries have
the same length (spec section 3). -/
def lenInv (s : BotState) : Prop :=
  s.context.length = s.used_queries.length

/-- A failed-query entry carries exactly one of the two annotation
prefixes (spec sections 4.1 and 8). -/
def annotatedOnce (e : String) : Prop :=
  (strHasPfx "Invalid syntax of this query: " e = true ∧
   strHasPfx "No data generated for this query: " e = false) ∨
  (strHasPfx "No data generated for this query: " e = true ∧
   strHasPfx "Invalid syntax of this query: " e = false)

/-- Every entry of `previous_queries` carries exactly one annotation
prefix. -/
def allAnnotated (s : BotState) : Prop :=
  ∀ e ∈ s.previous_queries, annotatedOnce e

/-- A concrete collaborator behaviour in which the LLM answer never
contains the missing-data marker. -/
def oHello : Oracles :=
  { answerLLM := fun _ _ _ => "hello",
    cypherLLM := fun _ _ _ => "x",
    litEval := fun _ => .synErr,
    db := fun _ => .synErr }

/-- The final state of `runTurn oHello 1 initState "q"`: the first
answer has no marker, so the turn ends at once and saves the exchange. -/
def helloDone : BotState :=
  { chat_history := [HistEntry.user "q" [], HistEntry.assistant "hello"],
    rag_question := "", question := "q", answer := "hello",
    context := [], previous_queries := [], used_queries := [] }

/-- A concrete collaborator behaviour in which every LLM answer contains
the missing-data marker and every round generates an empty query list. -/
def alwaysNoCtx : Oracles :=
  { answerLLM := fun _ _ _ => "NO_CONTEXT more",
    cypherLLM := fun _ _ _ => "out",
    litEval := fun _ => .lit (.listOfStr []),
    db := fun _ => .ok "[1]" }

/-- A `literal_eval` behaviour in which the input "MATCH" parses as
Python syntax but is not a literal, raising `ValueError` — the
documented behaviour of `ast.literal_eval` on a bare identifier — while
every other input raises `SyntaxError`. -/
def litEvalBareIdent : String → ParseResult := fun out =>
  if out = "MATCH" then .valErr else .synErr

/-- A `literal_eval` behaviour that parses every input as the Python
string literal `'ab'` (the LLM emitting a quoted query). -/
def litEvalStrAB : String → ParseResult := fun _ => .lit (.str "ab")

/-- A graph store on which every query raises `CypherSyntaxError`. -/
def dbAllBad : String → QueryResult := fun _ => .synErr

/-- Collaborator behaviour for the rag-question persistence scenario:
the first question "q1" with empty context gets a marker answer, every
other prompt a final answer; one query "Q1" succeeds with data. -/
def oC7 : Oracles :=
  { answerLLM := fun q ctx _ =>
      if q = "q1" ∧ ctx = [] then "NO_CONTEXT tell me" else "final",
    cypherLLM := fun _ _ _ => "irrelevant",
    litEval := fun _ => .lit (.listOfStr ["Q1"]),
    db := fun _ => .ok "[data]" }

/-- The state after the first turn (`runTurn oC7 2 initState "q1"`):
one retrieval round ran, so `rag_question` holds "tell me". -/
def c7TurnOne : BotState :=
  { chat_history := [HistEntry.user "q1" ["[data]"], HistEntry.assistant "final"],
    rag_question := "tell me", question := "q1", answer := "final",
    context := ["[data]"], previous_queries := [], used_queries := ["Q1"] }

/-- A character list is a Boolean prefix of itself followed by anything. -/
theorem isPrefixOf_app (l t : List Char) : l.isPrefixOf (l ++ t) = true := by
  induction l with
  | nil => simp [List.isPrefixOf]
  | cons a as ih => simp [List.isPrefixOf, ih]

/-- A string starts with itself followed by anything. -/
theorem strHasPfx_append_self (p q : String) : strHasPfx p (p ++ q) = true := by
  cases p with
  | mk lp =>
    cases q with
    | mk lq => exact isPrefixOf_app lp lq

/-- The "no data" annotation never starts an "invalid syntax" entry. -/
theorem noData_not_pfx_invalid (q : String) :
    strHasPfx "No data generated for this query: "
      ("Invalid syntax of this query: " ++ q) = false := by
  cases q with
  | mk l => rfl

/-- The "invalid syntax" annotation never starts a "no data" entry. -/
theorem invalid_not_pfx_noData (q : String) :
    strHasPfx "Invalid syntax of this query: "
      ("No data generated for this query: " ++ q) = false := by
  cases q with
  | mk l => rfl

/-- An entry annotated as invalid carries exactly that one prefix. -/
theorem annotatedOnce_invalid (q : String) :
    annotatedOnce ("Invalid syntax of this query: " ++ q) :=
  Or.inl ⟨strHasPfx_append_self _ q, noData_not_pfx_invalid q⟩

/-- An entry annotated as empty carries exactly that one prefix. -/
theorem annotatedOnce_noData (q : String) :
    annotatedOnce ("No data generated for this query: " ++ q) :=
  Or.inr ⟨strHasPfx_append_self _ q, invalid_not_pfx_noData q⟩

/-- Behaviour of one query execution when the graph store raises a
syntax error. -/
theorem execQuery_synErr (db : String → QueryResult) (s : BotState)
    (q : String) (h : db q = .synErr) :
    execQuery db s q = { s with previous_queries :=
      s.previous_queries ++ ["Invalid syntax of this query: " ++ q] } := by
  simp [execQuery, h]

/-- Behaviour of one query execution when the result strips to "[]". -/
theorem execQuery_empty (db : String → QueryResult) (s : BotState)
    (q r : String) (h : db q = .ok r) (hr : pyStrip r = "[]") :
    execQuery db s q = { s with previous_queries :=
      s.previous_queries ++ ["No data generated for this query: " ++ q] } := by
  simp [execQuery, h, hr]

/-- Behaviour of one query execution when data comes back. -/
theorem execQuery_success (db : String → QueryResult) (s : BotState)
    (q r : String) (h : db q = .ok r) (hr : ¬ pyStrip r = "[]") :
    execQuery db s q = { s with context := s.context ++ [r],
                                used_queries := s.used_queries ++ [q] } := by
  simp [execQuery, h, hr]

/-- Appending an annotated entry preserves the annotation invariant. -/
theorem allAnn_append (pq : List String) (a : String)
    (h : ∀ e ∈ pq, annotatedOnce e) (ha : annotatedOnce a) :
    ∀ e ∈ pq ++ [a], annotatedOnce e := by
  intro e he
  rcases List.mem_append.mp he with h1 | h2
  · exact h e h1
  · rcases List.mem_singleton.mp h2 with rfl
    exact ha

/-- One query execution preserves the chat history, the question, the
length invariant and the annotation invariant. -/
theorem execQuery_inv (db : String → QueryResult) (s : BotState) (q : String) :
    (execQuery db s q).chat_history = s.chat_history ∧
    (execQuery db s q).question = s.question ∧
    (lenInv s → lenInv (execQuery db s q)) ∧
    (allAnnotated s → allAnnotated (execQuery db s q)) := by
  cases hq : db q with
  | synErr =>
    rw [execQuery_synErr db s q hq]
    exact ⟨rfl, rfl, fun h => h,
      fun h => allAnn_append _ _ h (annotatedOnce_invalid q)⟩
  | ok r =>
    by_cases hr : pyStrip r = "[]"
    · rw [execQuery_empty db s q r hq hr]
      exact ⟨rfl, rfl, fun h => h,
        fun h => allAnn_append _ _ h (annotatedOnce_noData q)⟩
    · rw [execQuery_success db s q r hq hr]
      refine ⟨rfl, rfl, ?_, fun h => h⟩
      intro h
      have h' : s.context.length = s.used_queries.length := h
      show (s.context ++ [r]).length = (s.used_queries ++ [q]).length
      simp [h']

/-- The submission trace of a batch is exactly the candidate list. -/
theorem execBatch_trace (db : String → QueryResult) (s : BotState)
    (qs : List String) : (execBatch db s qs).2 = qs := by
  induction qs generalizing s with
  | nil => rfl
  | cons q qs ih => simp [execBatch, ih]

/-- A whole batch preserves the chat history, the question, the length
invariant and the annotation invariant. -/
theorem execBatch_inv (db : String → QueryResult) (qs : List String) :
    ∀ s : BotState,
      (execBatch db s qs).1.chat_history = s.chat_history ∧
      (execBatch db s qs).1.question = s.question ∧
      (lenInv s → lenInv (execBatch db s qs).1) ∧
      (allAnnotated s → allAnnotated (execBatch db s qs).1) := by
  induction qs with
  | nil => intro s; exact ⟨rfl, rfl, fun h => h, fun h => h⟩
  | cons q qs ih =>
    intro s
    have h1 := execQuery_inv db s q
    have h2 := ih (execQuery db s q)
    exact ⟨h2.1.trans h1.1, h2.2.1.trans h1.2.1,
      fun h => h2.2.2.1 (h1.2.2.1 h), fun h => h2.2.2.2 (h1.2.2.2 h)⟩

/-- A successful retrieval round preserves the chat history, the
question, the length invariant and the annotation invariant. -/
theorem retrievalRound_ok (o : Oracles) (s s1 : BotState) (tr : List String)
    (h : retrievalRound o s = .ok (s1, tr)) :
    s1.chat_history = s.chat_history ∧ s1.question = s.question ∧
    (lenInv s → lenInv s1) ∧ (allAnnotated s → allAnnotated s1) := by
  unfold retrievalRound at h
  cases hp : parseQueryOutput o.litEval
      (o.cypherLLM (roundStart s).rag_question (roundStart s).previous_queries
        (roundStart s).used_queries) with
  | error e =>
    rw [hp] at h
    exact absurd h (by simp)
  | ok qs =>
    rw [hp] at h
    simp only [Except.ok.injEq, Prod.mk.injEq] at h
    obtain ⟨h1, h2⟩ := h
    subst h1
    have hB := execBatch_inv o.db qs (roundStart s)
    exact ⟨hB.1, hB.2.1, fun h => hB.2.2.1 h, fun h => hB.2.2.2 h⟩

/-- When the retrieval loop completes, the final state keeps the chat
history and question of the entry state, preserves the two invariants,
and its answer no longer contains the missing-data marker. -/
theorem runLoop_done (o : Oracles) :
    ∀ (fuel : Nat) (s : BotState) (tr : List String) (s' : BotState)
      (tr' : List String), runLoop o fuel s tr = .done s' tr' →
      s'.chat_history = s.chat_history ∧ s'.question = s.question ∧
      (lenInv s → lenInv s') ∧ (allAnnotated s → allAnnotated s') ∧
      strContains s'.answer "NO_CONTEXT" = false := by
  intro fuel
  induction fuel with
  | zero =>
    intro s tr s' tr' h
    by_cases hm : strContains s.answer "NO_CONTEXT" = true
    · simp [runLoop, hm] at h
    · rw [Bool.not_eq_true] at hm
      simp [runLoop, hm] at h
      obtain ⟨rfl, rfl⟩ := h
      exact ⟨rfl, rfl, fun h => h, fun h => h, hm⟩
  | succ n ih =>
    intro s tr s' tr' h
    by_cases hm : strContains s.answer "NO_CONTEXT" = true
    · simp only [runLoop, hm, if_true] at h
      cases hr : retrievalRound o s with
      | error e =>
        rw [hr] at h
        exact absurd h (by simp)
      | ok p =>
        obtain ⟨s1, tr1⟩ := p
        rw [hr] at h
        have hstep := retrievalRound_ok o s s1 tr1 hr
        have hrec := ih s1 (tr ++ tr1) s' tr' h
        exact ⟨hrec.1.trans hstep.1, hrec.2.1.trans hstep.2.1,
          fun hl => hrec.2.2.1 (hstep.2.2.1 hl),
          fun ha => hrec.2.2.2.1 (hstep.2.2.2 ha), hrec.2.2.2.2⟩
    · rw [Bool.not_eq_true] at hm
      simp [runLoop, hm] at h
      obtain ⟨rfl, rfl⟩ := h
      exact ⟨rfl, rfl, fun h => h, fun h => h, hm⟩

/-- A completed turn decomposes as a completed retrieval loop followed
by saving the exchange. -/
theorem runTurn_done_state (o : Oracles) (fuel : Nat) (s : BotState)
    (q : String) (s' : BotState) (tr : List String)
    (h : runTurn o fuel s q = .done s' tr) :
    ∃ s2, runLoop o fuel (withNewAnswer o (resetForQuestion s q)) [] =
        .done s2 tr ∧ s' = save_chat_history s2 := by
  unfold runTurn at h
  cases hL : runLoop o fuel (withNewAnswer o (resetForQuestion s q)) [] with
  | done s2 tr2 =>
    rw [hL] at h
    have h' : TurnResult.done (save_chat_history s2) tr2 = .done s' tr := h
    injection h' with h1 h2
    subst h2
    subst h1
    exact ⟨s2, rfl, rfl⟩
  | fuelOut =>
    rw [hL] at h
    have h' : TurnResult.fuelOut = .done s' tr := h
    exact absurd h' (by simp)
  | exn e =>
    rw [hL] at h
    have h' : TurnResult.exn e = .done s' tr := h
    exact absurd h' (by simp)

/-- With the collaborator behaviour `alwaysNoCtx`, every answer contains
the marker, so the loop is still running after any number of rounds. -/
theorem runLoop_alwaysNoCtx :
    ∀ (fuel : Nat) (s : BotState) (tr : List String),
      s.answer = "NO_CONTEXT more" →
      runLoop alwaysNoCtx fuel s tr = .fuelOut := by
  intro fuel
  induction fuel with
  | zero =>
    intro s tr h
    have hm : strContains s.answer "NO_CONTEXT" = true := by rw [h]; decide
    simp [runLoop, hm]
  | succ n ih =>
    intro s tr h
    have hm : strContains s.answer "NO_CONTEXT" = true := by rw [h]; decide
    have hr : retrievalRound alwaysNoCtx s =
        .ok (withNewAnswer alwaysNoCtx (roundStart s), []) := rfl
    simp only [runLoop, hm, if_true, hr]
    exact ih _ _ rfl

/-- C1: For every query candidate executed in a retrieval round: if the
graph store raises a query-syntax error, the annotated string "Invalid
syntax of this query: <query>" is appended to the failed queries and the
accumulated context is unchanged; if execution succeeds but the result
serializes to "[]", the annotated string "No data generated for this
query: <query>" is appended to the failed queries and the context is
unchanged; otherwise the raw query string is appended to the succeeded
queries and the serialized result to the context.  In consequence every
entry of the failed-query list (within a batch from an
annotated-entries-only start, and at the end of any completed turn)
carries exactly one of the two annotation prefixes, never both. -/
theorem claim_C1 (db : String → QueryResult) (s : BotState) (q : String) :
    (db q = .synErr →
      execQuery db s q = { s with previous_queries :=
        s.previous_queries ++ ["Invalid syntax of this query: " ++ q] }) ∧
    (∀ r, db q = .ok r → pyStrip r = "[]" →
      execQuery db s q = { s with previous_queries :=
        s.previous_queries ++ ["No data generated for this query: " ++ q] }) ∧
    (∀ r, db q = .ok r → pyStrip r ≠ "[]" →
      execQuery db s q = { s with context := s.context ++ [r],
                                  used_queries := s.used_queries ++ [q] }) ∧
    (∀ qs, allAnnotated s → allAnnotated (execBatch db s qs).1) ∧
    (∀ (o : Oracles) (fuel : Nat) (s0 : BotState) (q0 : String)
       (s' : BotState) (tr : List String),
       runTurn o fuel s0 q0 = .done s' tr → allAnnotated s') := by
  refine ⟨fun h => execQuery_synErr db s q h,
          fun r h hr => execQuery_empty db s q r h hr,
          fun r h hr => execQuery_success db s q r h hr,
          fun qs h => (execBatch_inv db qs s).2.2.2 h, ?_⟩
  intro o fuel s0 q0 s' tr h
  obtain ⟨s2, hL, rfl⟩ := runTurn_done_state o fuel s0 q0 s' tr h
  have hD := runLoop_done o fuel (withNewAnswer o (resetForQuestion s0 q0)) [] s2 tr hL
  have h0 : allAnnotated (withNewAnswer o (resetForQuestion s0 q0)) := by
    intro e he
    exact absurd he (List.not_mem_nil e)
  exact hD.2.2.2.1 h0

/-- Witness for C1: a concrete syntactically invalid query. -/
theorem claim_C1_witness :
    execQuery dbAllBad initState "Q" = { initState with previous_queries :=
      initState.previous_queries ++ ["Invalid syntax of this query: " ++ "Q"] } :=
  (claim_C1 dbAllBad initState "Q").1 rfl

/-- C2 counterexample: with `ast.literal_eval` behaving as documented on
the bare identifier "MATCH" (it raises `ValueError`, not `SyntaxError`),
the parsing step propagates the error instead of falling back to the
single-element query list, so the parsing is not a total function and
the parse failure is fatal. -/
theorem claim_C2_cex :
    parseQueryOutput litEvalBareIdent "MATCH" = .error PyError.valErr ∧
    parseQueryOutput litEvalBareIdent "MATCH" ≠ .ok ["MATCH"] :=
  ⟨rfl, fun h => Except.noConfusion h⟩

/-- C2 (amended): the single-query fallback applies exactly to parse
failures that raise `SyntaxError`; a parse failure that raises
`ValueError` is not caught and propagates as an error, so the parsing
step is not a total function of the LLM output. -/
theorem claim_C2 (litEval : String → ParseResult) (out : String) :
    (litEval out = .synErr → parseQueryOutput litEval out = .ok [out]) ∧
    (litEval out = .valErr →
      parseQueryOutput litEval out = .error PyError.valErr) := by
  constructor
  · intro h
    simp [parseQueryOutput, h]
  · intro h
    simp [parseQueryOutput, h]

/-- Witness for C2: a concrete `SyntaxError` fallback. -/
theorem claim_C2_witness : parseQueryOutput litEvalBareIdent "x" = .ok ["x"] :=
  (claim_C2 litEvalBareIdent "x").1 rfl

/-- C3: at every state reachable by the retrieval loop within a user
question — after the per-question reset, after each query execution,
after each retrieval round, and at the end of the turn — the length of
the accumulated context equals the length of the succeeded-query list,
the two lists growing in lockstep in execution order. -/
theorem claim_C3 :
    (∀ (s : BotState) (q : String), lenInv (resetForQuestion s q)) ∧
    (∀ (db : String → QueryResult) (s : BotState) (q : String),
       lenInv s → lenInv (execQuery db s q)) ∧
    (∀ (db : String → QueryResult) (s : BotState) (q : String),
       ((execQuery db s q).context = s.context ∧
        (execQuery db s q).used_queries = s.used_queries) ∨
       (∃ r, (execQuery db s q).context = s.context ++ [r] ∧
             (execQuery db s q).used_queries = s.used_queries ++ [q])) ∧
    (∀ (db : String → QueryResult) (s : BotState) (qs : List String),
       lenInv s → lenInv (execBatch db s qs).1) ∧
    (∀ (o : Oracles) (s s1 : BotState) (tr : List String),
       retrievalRound o s = .ok (s1, tr) → lenInv s → lenInv s1) ∧
    (∀ (o : Oracles) (fuel : Nat) (s : BotState) (q : String)
       (s' : BotState) (tr : List String),
       runTurn o fuel s q = .done s' tr → lenInv s') := by
  refine ⟨fun s q => rfl,
          fun db s q h => (execQuery_inv db s q).2.2.1 h,
          ?_,
          fun db s qs h => (execBatch_inv db qs s).2.2.1 h,
          fun o s s1 tr h hl => (retrievalRound_ok o s s1 tr h).2.2.1 hl,
          ?_⟩
  · intro db s q
    cases hq : db q with
    | synErr =>
      rw [execQuery_synErr db s q hq]
      exact Or.inl ⟨rfl, rfl⟩
    | ok r =>
      by_cases hr : pyStrip r = "[]"
      · rw [execQuery_empty db s q r hq hr]
        exact Or.inl ⟨rfl, rfl⟩
      · rw [execQuery_success db s q r hq hr]
        exact Or.inr ⟨r, rfl, rfl⟩
  · intro o fuel s q s' tr h
    obtain ⟨s2, hL, rfl⟩ := runTurn_done_state o fuel s q s' tr h
    exact (runLoop_done o fuel _ [] s2 tr hL).2.2.1 rfl

/-- Witness for C3: the invariant at the end of a concrete turn. -/
theorem claim_C3_witness : lenInv helloDone :=
  claim_C3.2.2.2.2.2 oHello 1 initState "q" helloDone [] (by decide)

/-- C4: for every user question whose first LLM answer contains no
missing-data marker, the turn performs zero graph queries (the
submission trace is empty) and the answer saved to the chat history is
that first answer unchanged. -/
theorem claim_C4 (o : Oracles) (fuel : Nat) (s : BotState) (q : String)
    (h : strContains (o.answerLLM q [] s.chat_history) "NO_CONTEXT" = false) :
    runTurn o fuel s q =
      .done (save_chat_history (withNewAnswer o (resetForQuestion s q))) [] ∧
    (save_chat_history (withNewAnswer o (resetForQuestion s q))).answer =
      o.answerLLM q [] s.chat_history ∧
    (save_chat_history (withNewAnswer o (resetForQuestion s q))).chat_history =
      s.chat_history ++ [HistEntry.user q [],
        HistEntry.assistant (o.answerLLM q [] s.chat_history)] := by
  have hA : strContains (withNewAnswer o (resetForQuestion s q)).answer
      "NO_CONTEXT" = false := h
  refine ⟨?_, rfl, rfl⟩
  unfold runTurn
  cases fuel with
  | zero => simp [runLoop, hA]
  | succ n => simp [runLoop, hA]

/-- Witness for C4: a concrete marker-free first answer. -/
theorem claim_C4_witness :
    runTurn oHello 1 initState "q" =
      .done (save_chat_history (withNewAnswer oHello (resetForQuestion initState "q"))) [] ∧
    (save_chat_history (withNewAnswer oHello (resetForQuestion initState "q"))).answer =
      oHello.answerLLM "q" [] initState.chat_history ∧
    (save_chat_history (withNewAnswer oHello (resetForQuestion initState "q"))).chat_history =
      initState.chat_history ++ [HistEntry.user "q" [],
        HistEntry.assistant (oHello.answerLLM "q" [] initState.chat_history)] :=
  claim_C4 oHello 1 initState "q" (by decide)

/-- C5: every candidate of a retrieval round is submitted to the graph
store, in list order, for every graph-store behaviour — in particular a
candidate's own failure never prevents the remaining candidates of the
round from being attempted. -/
theorem claim_C5 (db : String → QueryResult) (s : BotState)
    (qs : List String) : (execBatch db s qs).2 = qs :=
  execBatch_trace db s qs

/-- C6: the retrieval loop terminates only when the latest LLM answer
contains no missing-data marker, and for the collaborator behaviour
`alwaysNoCtx`, in which every produced answer contains the marker, the
loop is still running after every round budget — the program has no
maximum round bound. -/
theorem claim_C6 :
    (∀ (o : Oracles) (fuel : Nat) (s : BotState) (tr : List String)
       (s' : BotState) (tr' : List String),
       runLoop o fuel s tr = .done s' tr' →
       strContains s'.answer "NO_CONTEXT" = false) ∧
    (∀ (fuel : Nat) (s : BotState) (q : String),
       runTurn alwaysNoCtx fuel s q = .fuelOut) := by
  constructor
  · intro o fuel s tr s' tr' h
    exact (runLoop_done o fuel s tr s' tr' h).2.2.2.2
  · intro fuel s q
    unfold runTurn
    rw [runLoop_alwaysNoCtx fuel _ [] rfl]

/-- Witness for C6: a concrete completed loop. -/
theorem claim_C6_witness : strContains initState.answer "NO_CONTEXT" = false :=
  claim_C6.1 alwaysNoCtx 1 initState [] initState [] (by decide)

/-- C7 counterexample: after a completed turn on "q1" (oracles `oC7`,
one retrieval round), `rag_question` holds "tell me"; the per-question
reset at the start of the next question "q2" leaves `rag_question`
unchanged, so the RetrievalState field `rag_question` is persisted from
one turn to the next, contradicting the claim that all fields are
reset. -/
theorem claim_C7_cex :
    runTurn oC7 2 initState "q1" = .done c7TurnOne ["Q1"] ∧
    c7TurnOne.rag_question = "tell me" ∧
    (resetForQuestion c7TurnOne "q2").rag_question = "tell me" ∧
    ("tell me" : String) ≠ "" :=
  ⟨by decide, rfl, rfl, by decide⟩

/-- C7 (amended): at the start of processing every new user question,
`question` is set to the new input and `context`, `previous_queries` and
`used_queries` are reset to empty, but `rag_question` (and the previous
`answer`) are not reset and retain their values from the previous turn
until overwritten later in the turn. -/
theorem claim_C7 (s : BotState) (q : String) :
    (resetForQuestion s q).question = q ∧
    (resetForQuestion s q).context = [] ∧
    (resetForQuestion s q).previous_queries = [] ∧
    (resetForQuestion s q).used_queries = [] ∧
    (resetForQuestion s q).rag_question = s.rag_question ∧
    (resetForQuestion s q).answer = s.answer ∧
    (resetForQuestion s q).chat_history = s.chat_history :=
  ⟨rfl, rfl, rfl, rfl, rfl, rfl, rfl⟩

/-- C8: `restart` clears the chat history and is idempotent, and a turn
completed after a restart leaves the chat history containing exactly one
exchange — one user entry for the question followed by one assistant
entry — regardless of the state before the restart. -/
theorem claim_C8 :
    (∀ s : BotState, (restart s).chat_history = []) ∧
    (∀ s : BotState, restart (restart s) = restart s) ∧
    (∀ (o : Oracles) (fuel : Nat) (s : BotState) (q : String)
       (s' : BotState) (tr : List String),
       runTurn o fuel (restart s) q = .done s' tr →
       ∃ c a, s'.chat_history = [HistEntry.user q c, HistEntry.assistant a]) := by
  refine ⟨fun s => rfl, fun s => rfl, ?_⟩
  intro o fuel s q s' tr h
  obtain ⟨s2, hL, rfl⟩ := runTurn_done_state o fuel (restart s) q s' tr h
  have hD := runLoop_done o fuel _ [] s2 tr hL
  refine ⟨s2.context, s2.answer, ?_⟩
  show s2.chat_history ++ [HistEntry.user s2.question s2.context,
      HistEntry.assistant s2.answer] = _
  rw [hD.1, hD.2.1]
  rfl

/-- Witness for C8: a concrete turn after a restart. -/
theorem claim_C8_witness :
    ∃ c a, helloDone.chat_history = [HistEntry.user "q" c, HistEntry.assistant a] :=
  claim_C8.2.2 oHello 1 initState "q" helloDone [] (by decide)

/-- C9 counterexample: with a graph store on which every query fails,
the candidate list ["X", "X"] submits "X" a second time after its first
submission has already failed and been recorded, so a query string that
has failed in a round can be re-submitted verbatim in the same round. -/
theorem claim_C9_cex :
    (execBatch dbAllBad initState ["X", "X"]).2 = ["X", "X"] ∧
    (execQuery dbAllBad initState "X").previous_queries =
      ["Invalid syntax of this query: X"] ∧
    (execBatch dbAllBad initState ["X", "X"]).1.previous_queries =
      ["Invalid syntax of this query: X", "Invalid syntax of this query: X"] :=
  ⟨by decide, by decide, by decide⟩

/-- C9 (amended): the round performs no de-duplication — a failed query
is re-submitted in the same round exactly when it occurs again in the
candidate list; whenever the candidate list is duplicate-free, no query
string (failed or not) is submitted more than once in the round. -/
theorem claim_C9 (db : String → QueryResult) (s : BotState)
    (qs : List String) (h : qs.Nodup) (q : String) :
    ((execBatch db s qs).2).count q ≤ 1 := by
  rw [execBatch_trace]
  exact List.nodup_iff_count_le_one.mp h q

/-- Witness for C9: a concrete duplicate-free round. -/
theorem claim_C9_witness :
    ((execBatch dbAllBad initState ["A", "B"]).2).count "A" ≤ 1 :=
  claim_C9 dbAllBad initState ["A", "B"] (by decide) "A"

/-- C10: the single-query fallback is applied exactly when the literal
parse raises a syntax error; when the LLM output parses successfully,
the parsed value itself is iterated as the candidate sequence — in
particular a quoted string literal is executed one character at a time
as separate one-character queries rather than as a one-element list. -/
theorem claim_C10 (litEval : String → ParseResult) (out : String) :
    (litEval out = .synErr → parseQueryOutput litEval out = .ok [out]) ∧
    (∀ v, litEval out = .lit v → parseQueryOutput litEval out = pyIter v) ∧
    (∀ cs, litEval out = .lit (.str cs) →
       parseQueryOutput litEval out =
         .ok (cs.data.map (fun c => String.mk [c]))) := by
  refine ⟨fun h => ?_, fun v h => ?_, fun cs h => ?_⟩
  · simp [parseQueryOutput, h]
  · simp [parseQueryOutput, h]
  · simp [parseQueryOutput, h, pyIter]

/-- Witness for C10: the quoted literal 'ab' runs as ["a", "b"]. -/
theorem claim_C10_witness :
    parseQueryOutput litEvalStrAB "x" = .ok ["a", "b"] :=
  (claim_C10 litEvalStrAB "x").2.2 "ab" rfl
